import Mathlib

/-!
Verification of the `payments` account state machine.

Shallow embedding of `src/payments-core/src/account/account.rs`:
the `Transaction` enum, the `Account` struct and its `process` entry
point with the five operation handlers (`deposit`, `withdrawal`,
`dispute`, `resolve`, `chargeback`).

Modelling choices, each mirroring the source:
* `Tx` (`u32`) and `ClientId` (`u16`) are modelled as `Nat`; the code
  only compares them for equality, never does arithmetic on them.
* `Amount` (`f64`) is modelled as `ℚ`: balances are exact sums and
  differences of the applied amounts, which is the arithmetic the code
  performs, and the invariants of the spec are stated "within numeric
  tolerance of the chosen decimal type".
* Rust `HashMap<Tx, Transaction>` is modelled extensionally as
  `Tx → Option Transaction` with `insert`/`remove`/lookup; the spec
  notes insertion order is irrelevant.
* `anyhow` string errors are mapped to an error enum, one constructor
  per distinct error site/message in the source.
* `fn process(&mut self, tx) -> Result<()>` becomes
  `Account → Transaction → Except TransactionError Unit × Account`,
  returning the result together with the possibly mutated state.
-/

namespace Payments

/-- `pub type Tx = u32;` — only used as a map key, compared for equality. -/
abbrev Tx := Nat

/-- `pub type ClientId = u16;` — only compared for equality. -/
abbrev ClientId := Nat

/-- `pub type Amount = f64;` — balances modelled as exact rationals. -/
abbrev Amount := ℚ

/-- The `Transaction` enum of `account.rs`: five variants, each carrying
`(ClientId, Tx, Amount)`. -/
inductive Transaction where
  | Deposit (client : ClientId) (tx : Tx) (amount : Amount)
  | Withdrawal (client : ClientId) (tx : Tx) (amount : Amount)
  | Dispute (client : ClientId) (tx : Tx) (amount : Amount)
  | Resolve (client : ClientId) (tx : Tx) (amount : Amount)
  | Chargeback (client : ClientId) (tx : Tx) (amount : Amount)
deriving DecidableEq, Repr

/-- The embedded client id of a transaction, as extracted by the first
`match` in `Account::process` (the first field of every variant). -/
def Transaction.clientId : Transaction → ClientId
  | .Deposit c _ _ => c
  | .Withdrawal c _ _ => c
  | .Dispute c _ _ => c
  | .Resolve c _ _ => c
  | .Chargeback c _ _ => c

/-- One error constructor per distinct `anyhow!` message in `account.rs`. -/
inductive TransactionError where
  /-- "Transaction failed because account is frozen!" -/
  | AccountFrozen
  /-- "Transaction failed! not matching the account client id." -/
  | ClientMismatch
  /-- "withdrawal failed, insuficcient funds." and
      "dispute failed, insuficcient funds." -/
  | InsufficientFunds
  /-- "resolving dispute failed, insuficcient held funds." and
      "chargeback failed, insuficcient held funds." -/
  | InsufficientHeldFunds
  /-- "chargeback failed, insuficcient total funds." -/
  | InsufficientTotalFunds
  /-- "dispute failed, not a valid transaction id." /
      "ignoring resolution, not a valid transaction id." /
      "ignoring chargeback, not a valid transaction id." -/
  | UnknownTransaction
  /-- "dispute failed, transaction referenced not valid." -/
  | InvalidStoredTransaction
deriving DecidableEq, Repr

/-- Extensional model of `HashMap<Tx, Transaction>`. -/
def TxMap := Tx → Option Transaction

/-- `HashMap::new()` -/
def TxMap.empty : TxMap := fun _ => none

/-- `HashMap::insert` (replaces an existing binding for the key). -/
def TxMap.insert (m : TxMap) (k : Tx) (v : Transaction) : TxMap :=
  fun t => if t = k then some v else m t

/-- `HashMap::remove` -/
def TxMap.remove (m : TxMap) (k : Tx) : TxMap :=
  fun t => if t = k then none else m t

/-- The `Account` struct of `account.rs`. -/
structure Account where
  client_id : ClientId
  available : Amount
  held : Amount
  total : Amount
  frozen : Bool
  records : TxMap
  disputed : TxMap

/-- `Account::new` — zero balances, not frozen, both maps empty. -/
def Account.new (client_id : ClientId) : Account :=
  { client_id := client_id
    available := 0
    held := 0
    total := 0
    frozen := false
    records := TxMap.empty
    disputed := TxMap.empty }

/-- `Account::verify_transaction_valid` — frozen is checked first, then
the client id. -/
def Account.verify_transaction_valid (a : Account) (client_id : ClientId) :
    Except TransactionError Unit :=
  if a.frozen then .error .AccountFrozen
  else if client_id ≠ a.client_id then .error .ClientMismatch
  else .ok ()

/-- `Account::deposit` — unconditional credit of `available` and `total`. -/
def Account.deposit (a : Account) (_tx : Tx) (amount : Amount) :
    Except TransactionError Unit × Account :=
  (.ok (), { a with available := a.available + amount
                    total := a.total + amount })

/-- `Account::withdrawal` — `available < amount` checked first, then
`total < amount` (both yield the same "insuficcient funds" error), then
the debit. -/
def Account.withdrawal (a : Account) (_tx : Tx) (amount : Amount) :
    Except TransactionError Unit × Account :=
  if a.available < amount then (.error .InsufficientFunds, a)
  else if a.total < amount then (.error .InsufficientFunds, a)
  else (.ok (), { a with available := a.available - amount
                         total := a.total - amount })

/-- `Account::dispute` — looks the id up in `records`; a stored Deposit
moves funds `available → held` (guarded by `available < amount`), a
stored Withdrawal credits `held` and `total`; on success the record is
inserted into `disputed` and removed from `records`. -/
def Account.dispute (a : Account) (tx : Tx) :
    Except TransactionError Unit × Account :=
  match a.records tx with
  | none => (.error .UnknownTransaction, a)
  | some dt =>
    let step : Except TransactionError Account :=
      match dt with
      | .Deposit _ _ amount =>
          if a.available < amount then .error .InsufficientFunds
          else .ok { a with available := a.available - amount
                            held := a.held + amount }
      | .Withdrawal _ _ amount =>
          .ok { a with held := a.held + amount
                       total := a.total + amount }
      | _ => .error .InvalidStoredTransaction
    match step with
    | .error e => (.error e, a)
    | .ok a1 =>
        (.ok (), { a1 with disputed := a1.disputed.insert tx dt
                           records := a1.records.remove tx })

/-- `Account::resolve` — looks the id up in `disputed`; either stored
variant is guarded by `held < amount`; a Deposit releases funds
`held → available`, a Withdrawal debits `held` and `total`; the id is
removed from `disputed` (and, in the source, never re-inserted into
`records`). -/
def Account.resolve (a : Account) (tx : Tx) :
    Except TransactionError Unit × Account :=
  match a.disputed tx with
  | none => (.error .UnknownTransaction, a)
  | some dt =>
    let step : Except TransactionError Account :=
      match dt with
      | .Deposit _ _ amount =>
          if a.held < amount then .error .InsufficientHeldFunds
          else .ok { a with held := a.held - amount
                            available := a.available + amount }
      | .Withdrawal _ _ amount =>
          if a.held < amount then .error .InsufficientHeldFunds
          else .ok { a with held := a.held - amount
                            total := a.total - amount }
      | _ => .ok a
    match step with
    | .error e => (.error e, a)
    | .ok a1 => (.ok (), { a1 with disputed := a1.disputed.remove tx })

/-- `Account::chargeback` — looks the id up in `disputed`; for either
stored variant, `held < amount` is checked, then `total < amount`; on
success `held` and `total` are debited and `frozen` is set; the id is
removed from `disputed`. -/
def Account.chargeback (a : Account) (tx : Tx) :
    Except TransactionError Unit × Account :=
  match a.disputed tx with
  | none => (.error .UnknownTransaction, a)
  | some dt =>
    let step : Except TransactionError Account :=
      match dt with
      | .Deposit _ _ amount | .Withdrawal _ _ amount =>
          if a.held < amount then .error .InsufficientHeldFunds
          else if a.total < amount then .error .InsufficientTotalFunds
          else .ok { a with held := a.held - amount
                            total := a.total - amount
                            frozen := true }
      | _ => .ok a
    match step with
    | .error e => (.error e, a)
    | .ok a1 => (.ok (), { a1 with disputed := a1.disputed.remove tx })

/-- `Account::process` — validates (frozen, client id), dispatches to
the handler for the variant, and on success records a Deposit or
Withdrawal into `records` keyed by its transaction id. -/
def Account.process (a : Account) (t : Transaction) :
    Except TransactionError Unit × Account :=
  match a.verify_transaction_valid t.clientId with
  | .error e => (.error e, a)
  | .ok _ =>
    let r :=
      match t with
      | .Deposit _ tx amount => a.deposit tx amount
      | .Withdrawal _ tx amount => a.withdrawal tx amount
      | .Dispute _ tx _ => a.dispute tx
      | .Resolve _ tx _ => a.resolve tx
      | .Chargeback _ tx _ => a.chargeback tx
    match r with
    | (.error e, a1) => (.error e, a1)
    | (.ok _, a1) =>
      match t with
      | .Deposit _ txid _ =>
          (.ok (), { a1 with records := a1.records.insert txid t })
      | .Withdrawal _ txid _ =>
          (.ok (), { a1 with records := a1.records.insert txid t })
      | _ => (.ok (), a1)

/-- Fold a list of transactions through `process`, keeping only the
state (the report-and-continue loop of the caller). -/
def Account.processAll (a : Account) : List Transaction → Account
  | [] => a
  | t :: ts => ((a.process t).2).processAll ts

/-- True exactly for the two storable variants, Deposit and Withdrawal; the
source only ever inserts these into `records`/`disputed`, and each handler has
an explicit fallback arm for the remaining variants. -/
def Transaction.isDisputable : Transaction → Bool
  | .Deposit _ _ _ => true
  | .Withdrawal _ _ _ => true
  | _ => false

/-- Conservation invariant of the spec: `total == available + held`. -/
def Balanced (a : Account) : Prop := a.total = a.available + a.held

/-- Dispute-exclusivity invariant of the spec: no transaction id is present in
both `records` and `disputed`. -/
def MapsDisjoint (a : Account) : Prop :=
  ∀ x : Tx, a.records x = none ∨ a.disputed x = none

/-- Freshness of a transaction id: a Deposit or Withdrawal carries an id not
currently present in either map (the spec assumes transaction ids are unique
per client); other variants carry no new id. -/
def Account.freshId (a : Account) : Transaction → Prop
  | .Deposit _ tx _ => a.records tx = none ∧ a.disputed tx = none
  | .Withdrawal _ tx _ => a.records tx = none ∧ a.disputed tx = none
  | _ => True

/-- Account states reachable by any sequence of `process` calls starting from
`Account.new` (failed calls included; they leave the state unchanged). -/
inductive Reachable : Account → Prop where
  | new (c : ClientId) : Reachable (Account.new c)
  | step {a : Account} (t : Transaction) : Reachable a → Reachable (a.process t).2

/-- Reachability restricted to traces in which every Deposit/Withdrawal uses a
fresh transaction id, the intended input discipline of the spec. -/
inductive ReachableFresh : Account → Prop where
  | new (c : ClientId) : ReachableFresh (Account.new c)
  | step {a : Account} (t : Transaction) : ReachableFresh a → a.freshId t →
      ReachableFresh (a.process t).2

/-- Concrete account mirroring the Rust test `test_chargeback_deposit`: client
12, held = total = 1, with a disputed deposit of amount 1 under id 1. -/
def sampleHeld : Account :=
  { Account.new 12 with
    held := 1
    total := 1
    disputed := TxMap.empty.insert 1 (.Deposit 12 1 1) }

/-- Concrete account mirroring Scenario C of the spec: client 12 with zero
balances and two settled records, a deposit (id 1) and a withdrawal (id 2),
each of amount 1. -/
def sampleRecords : Account :=
  { Account.new 12 with
    records := (TxMap.empty.insert 1 (.Deposit 12 1 1)).insert 2 (.Withdrawal 12 2 1) }

/-- Helper: on a non-frozen account, a matching client id passes validation. -/
theorem verify_ok (a : Account) (c : ClientId) (hf : a.frozen = false)
    (hc : c = a.client_id) : a.verify_transaction_valid c = .ok () := by
  simp [Account.verify_transaction_valid, hf, hc]

/-- Helper: a frozen account rejects every transaction with `AccountFrozen`,
unchanged (the frozen check is the first statement of
`verify_transaction_valid`). -/
theorem process_frozen (a : Account) (t : Transaction) (h : a.frozen = true) :
    a.process t = (.error .AccountFrozen, a) := by
  simp [Account.process, Account.verify_transaction_valid, h]

/-- Helper: on a non-frozen account, a mismatched client id is rejected with
`ClientMismatch`, unchanged. -/
theorem process_mismatch (a : Account) (t : Transaction) (hf : a.frozen = false)
    (hc : t.clientId ≠ a.client_id) :
    a.process t = (.error .ClientMismatch, a) := by
  simp [Account.process, Account.verify_transaction_valid, hf, hc]

/-- Helper: full behaviour of `process` on a Deposit (non-frozen, matching
client): unconditional credit and recording. -/
theorem process_deposit_eq (a : Account) (c : ClientId) (x : Tx) (amt : Amount)
    (hf : a.frozen = false) (hc : c = a.client_id) :
    a.process (.Deposit c x amt) =
      (.ok (), { a with available := a.available + amt
                        total := a.total + amt
                        records := a.records.insert x (.Deposit c x amt) }) := by
  simp [Account.process, Transaction.clientId, verify_ok a c hf hc, Account.deposit]

/-- Helper: full behaviour of `process` on a Withdrawal (non-frozen, matching
client): two sequential guards, then debit and recording. -/
theorem process_withdrawal_eq (a : Account) (c : ClientId) (x : Tx) (amt : Amount)
    (hf : a.frozen = false) (hc : c = a.client_id) :
    a.process (.Withdrawal c x amt) =
      if a.available < amt then (.error .InsufficientFunds, a)
      else if a.total < amt then (.error .InsufficientFunds, a)
      else (.ok (), { a with available := a.available - amt
                             total := a.total - amt
                             records := a.records.insert x (.Withdrawal c x amt) }) := by
  simp only [Account.process, Transaction.clientId, verify_ok a c hf hc, Account.withdrawal]
  split_ifs <;> simp

/-- Helper: disputing an id absent from `records` fails with
`UnknownTransaction`, unchanged. -/
theorem process_dispute_none (a : Account) (c : ClientId) (x : Tx) (amt : Amount)
    (hf : a.frozen = false) (hc : c = a.client_id) (h : a.records x = none) :
    a.process (.Dispute c x amt) = (.error .UnknownTransaction, a) := by
  simp [Account.process, Transaction.clientId, verify_ok a c hf hc, Account.dispute, h]

/-- Helper: disputing a stored Deposit of amount `A` is guarded by
`available < A`; on success funds move `available → held` and the record
moves `records → disputed`. -/
theorem process_dispute_deposit (a : Account) (c c2 : ClientId) (x y : Tx)
    (amt A : Amount) (hf : a.frozen = false) (hc : c = a.client_id)
    (h : a.records x = some (.Deposit c2 y A)) :
    a.process (.Dispute c x amt) =
      if a.available < A then (.error .InsufficientFunds, a)
      else (.ok (), { a with available := a.available - A
                             held := a.held + A
                             records := a.records.remove x
                             disputed := a.disputed.insert x (.Deposit c2 y A) }) := by
  simp only [Account.process, Transaction.clientId, verify_ok a c hf hc, Account.dispute, h]
  split_ifs <;> simp

/-- Helper: disputing a stored Withdrawal of amount `A` always succeeds,
crediting `held` and `total` and moving the record `records → disputed`. -/
theorem process_dispute_withdrawal (a : Account) (c c2 : ClientId) (x y : Tx)
    (amt A : Amount) (hf : a.frozen = false) (hc : c = a.client_id)
    (h : a.records x = some (.Withdrawal c2 y A)) :
    a.process (.Dispute c x amt) =
      (.ok (), { a with held := a.held + A
                        total := a.total + A
                        records := a.records.remove x
                        disputed := a.disputed.insert x (.Withdrawal c2 y A) }) := by
  simp [Account.process, Transaction.clientId, verify_ok a c hf hc, Account.dispute, h]

/-- Helper: resolving an id absent from `disputed` fails with
`UnknownTransaction`, unchanged. -/
theorem process_resolve_none (a : Account) (c : ClientId) (x : Tx) (amt : Amount)
    (hf : a.frozen = false) (hc : c = a.client_id) (h : a.disputed x = none) :
    a.process (.Resolve c x amt) = (.error .UnknownTransaction, a) := by
  simp [Account.process, Transaction.clientId, verify_ok a c hf hc, Account.resolve, h]

/-- Helper: resolving a disputed Deposit of amount `A` is guarded by
`held < A`; on success funds move `held → available` and the id is removed
from `disputed` (not re-inserted into `records`). -/
theorem process_resolve_deposit (a : Account) (c c2 : ClientId) (x y : Tx)
    (amt A : Amount) (hf : a.frozen = false) (hc : c = a.client_id)
    (h : a.disputed x = some (.Deposit c2 y A)) :
    a.process (.Resolve c x amt) =
      if a.held < A then (.error .InsufficientHeldFunds, a)
      else (.ok (), { a with held := a.held - A
                             available := a.available + A
                             disputed := a.disputed.remove x }) := by
  simp only [Account.process, Transaction.clientId, verify_ok a c hf hc, Account.resolve, h]
  split_ifs <;> simp

/-- Helper: resolving a disputed Withdrawal of amount `A` is guarded by
`held < A`; on success `held` and `total` are debited and the id is removed
from `disputed` (not re-inserted into `records`). -/
theorem process_resolve_withdrawal (a : Account) (c c2 : ClientId) (x y : Tx)
    (amt A : Amount) (hf : a.frozen = false) (hc : c = a.client_id)
    (h : a.disputed x = some (.Withdrawal c2 y A)) :
    a.process (.Resolve c x amt) =
      if a.held < A then (.error .InsufficientHeldFunds, a)
      else (.ok (), { a with held := a.held - A
                             total := a.total - A
                             disputed := a.disputed.remove x }) := by
  simp only [Account.process, Transaction.clientId, verify_ok a c hf hc, Account.resolve, h]
  split_ifs <;> simp

/-- Helper: charging back an id absent from `disputed` fails with
`UnknownTransaction`, unchanged. -/
theorem process_chargeback_none (a : Account) (c : ClientId) (x : Tx) (amt : Amount)
    (hf : a.frozen = false) (hc : c = a.client_id) (h : a.disputed x = none) :
    a.process (.Chargeback c x amt) = (.error .UnknownTransaction, a) := by
  simp [Account.process, Transaction.clientId, verify_ok a c hf hc, Account.chargeback, h]

/-- Helper: charging back a disputed Deposit of amount `A`: the `held < A`
guard precedes the `total < A` guard; on success `held` and `total` are
debited, the account is frozen, and the id is removed from `disputed`. -/
theorem process_chargeback_deposit (a : Account) (c c2 : ClientId) (x y : Tx)
    (amt A : Amount) (hf : a.frozen = false) (hc : c = a.client_id)
    (h : a.disputed x = some (.Deposit c2 y A)) :
    a.process (.Chargeback c x amt) =
      if a.held < A then (.error .InsufficientHeldFunds, a)
      else if a.total < A then (.error .InsufficientTotalFunds, a)
      else (.ok (), { a with held := a.held - A
                             total := a.total - A
                             frozen := true
                             disputed := a.disputed.remove x }) := by
  simp only [Account.process, Transaction.clientId, verify_ok a c hf hc, Account.chargeback, h]
  split_ifs <;> simp

/-- Helper: charging back a disputed Withdrawal behaves exactly like a
disputed Deposit: both guards, debit, freeze, removal. -/
theorem process_chargeback_withdrawal (a : Account) (c c2 : ClientId) (x y : Tx)
    (amt A : Amount) (hf : a.frozen = false) (hc : c = a.client_id)
    (h : a.disputed x = some (.Withdrawal c2 y A)) :
    a.process (.Chargeback c x amt) =
      if a.held < A then (.error .InsufficientHeldFunds, a)
      else if a.total < A then (.error .InsufficientTotalFunds, a)
      else (.ok (), { a with held := a.held - A
                             total := a.total - A
                             frozen := true
                             disputed := a.disputed.remove x }) := by
  simp only [Account.process, Transaction.clientId, verify_ok a c hf hc, Account.chargeback, h]
  split_ifs <;> simp

/-- Helper: the unreachable fallback arm of `dispute` (a stored
non-Deposit/Withdrawal) fails with `InvalidStoredTransaction`, unchanged. -/
theorem process_dispute_nondisputable (a : Account) (c : ClientId) (x : Tx)
    (amt : Amount) (dt : Transaction) (hf : a.frozen = false) (hc : c = a.client_id)
    (h : a.records x = some dt) (hdt : dt.isDisputable = false) :
    a.process (.Dispute c x amt) = (.error .InvalidStoredTransaction, a) := by
  cases dt <;>
    simp_all [Account.process, Transaction.clientId, Account.dispute,
      Transaction.isDisputable, Account.verify_transaction_valid, hf]

/-- Helper: the unreachable fallback arm of `resolve` succeeds without
touching balances and still removes the id from `disputed`. -/
theorem process_resolve_nondisputable (a : Account) (c : ClientId) (x : Tx)
    (amt : Amount) (dt : Transaction) (hf : a.frozen = false) (hc : c = a.client_id)
    (h : a.disputed x = some dt) (hdt : dt.isDisputable = false) :
    a.process (.Resolve c x amt) = (.ok (), { a with disputed := a.disputed.remove x }) := by
  cases dt <;>
    simp_all [Account.process, Transaction.clientId, Account.resolve,
      Transaction.isDisputable, Account.verify_transaction_valid, hf]

/-- Helper: the unreachable fallback arm of `chargeback` succeeds without
touching balances and still removes the id from `disputed`. -/
theorem process_chargeback_nondisputable (a : Account) (c : ClientId) (x : Tx)
    (amt : Amount) (dt : Transaction) (hf : a.frozen = false) (hc : c = a.client_id)
    (h : a.disputed x = some dt) (hdt : dt.isDisputable = false) :
    a.process (.Chargeback c x amt) = (.ok (), { a with disputed := a.disputed.remove x }) := by
  cases dt <;>
    simp_all [Account.process, Transaction.clientId, Account.chargeback,
      Transaction.isDisputable, Account.verify_transaction_valid, hf]

/-- Helper: one `process` call preserves the conservation invariant. -/
theorem balanced_step (a : Account) (t : Transaction) (h : Balanced a) :
    Balanced (a.process t).2 := by
  by_cases hfz : a.frozen = true
  · rw [process_frozen a t hfz]; exact h
  · have hf : a.frozen = false := by simpa using hfz
    by_cases hc : t.clientId = a.client_id
    · cases t with
      | Deposit c x amt =>
          rw [process_deposit_eq a c x amt hf hc]
          simp only [Balanced] at h ⊢
          linarith
      | Withdrawal c x amt =>
          rw [process_withdrawal_eq a c x amt hf hc]
          split_ifs with h1 h2
          · exact h
          · exact h
          · simp only [Balanced] at h ⊢
            linarith
      | Dispute c x amt =>
          rcases hr : a.records x with _ | dt
          · rw [process_dispute_none a c x amt hf hc hr]; exact h
          · cases dt with
            | Deposit c2 y A =>
                rw [process_dispute_deposit a c c2 x y amt A hf hc hr]
                split_ifs with h1
                · exact h
                · simp only [Balanced] at h ⊢; linarith
            | Withdrawal c2 y A =>
                rw [process_dispute_withdrawal a c c2 x y amt A hf hc hr]
                simp only [Balanced] at h ⊢; linarith
            | Dispute c2 y A =>
                rw [process_dispute_nondisputable a c x amt _ hf hc hr rfl]; exact h
            | Resolve c2 y A =>
                rw [process_dispute_nondisputable a c x amt _ hf hc hr rfl]; exact h
            | Chargeback c2 y A =>
                rw [process_dispute_nondisputable a c x amt _ hf hc hr rfl]; exact h
      | Resolve c x amt =>
          rcases hr : a.disputed x with _ | dt
          · rw [process_resolve_none a c x amt hf hc hr]; exact h
          · cases dt with
            | Deposit c2 y A =>
                rw [process_resolve_deposit a c c2 x y amt A hf hc hr]
                split_ifs with h1
                · exact h
                · simp only [Balanced] at h ⊢; linarith
            | Withdrawal c2 y A =>
                rw [process_resolve_withdrawal a c c2 x y amt A hf hc hr]
                split_ifs with h1
                · exact h
                · simp only [Balanced] at h ⊢; linarith
            | Dispute c2 y A =>
                rw [process_resolve_nondisputable a c x amt _ hf hc hr rfl]; exact h
            | Resolve c2 y A =>
                rw [process_resolve_nondisputable a c x amt _ hf hc hr rfl]; exact h
            | Chargeback c2 y A =>
                rw [process_resolve_nondisputable a c x amt _ hf hc hr rfl]; exact h
      | Chargeback c x amt =>
          rcases hr : a.disputed x with _ | dt
          · rw [process_chargeback_none a c x amt hf hc hr]; exact h
          · cases dt with
            | Deposit c2 y A =>
                rw [process_chargeback_deposit a c c2 x y amt A hf hc hr]
                split_ifs with h1 h2
                · exact h
                · exact h
                · simp only [Balanced] at h ⊢; linarith
            | Withdrawal c2 y A =>
                rw [process_chargeback_withdrawal a c c2 x y amt A hf hc hr]
                split_ifs with h1 h2
                · exact h
                · exact h
                · simp only [Balanced] at h ⊢; linarith
            | Dispute c2 y A =>
                rw [process_chargeback_nondisputable a c x amt _ hf hc hr rfl]; exact h
            | Resolve c2 y A =>
                rw [process_chargeback_nondisputable a c x amt _ hf hc hr rfl]; exact h
            | Chargeback c2 y A =>
                rw [process_chargeback_nondisputable a c x amt _ hf hc hr rfl]; exact h
    · rw [process_mismatch a t hf hc]; exact h

/-- Helper: one `process` call with a fresh transaction id preserves
disjointness of `records` and `disputed`. -/
theorem disjoint_step (a : Account) (t : Transaction) (h : MapsDisjoint a)
    (hfr : a.freshId t) : MapsDisjoint (a.process t).2 := by
  by_cases hfz : a.frozen = true
  · rw [process_frozen a t hfz]; exact h
  · have hf : a.frozen = false := by simpa using hfz
    by_cases hc : t.clientId = a.client_id
    · cases t with
      | Deposit c x amt =>
          rw [process_deposit_eq a c x amt hf hc]
          intro z
          by_cases hz : z = x
          · subst hz; right; exact hfr.2
          · simpa [TxMap.insert, hz] using h z
      | Withdrawal c x amt =>
          rw [process_withdrawal_eq a c x amt hf hc]
          split_ifs with h1 h2
          · exact h
          · exact h
          · intro z
            by_cases hz : z = x
            · subst hz; right; exact hfr.2
            · simpa [TxMap.insert, hz] using h z
      | Dispute c x amt =>
          rcases hr : a.records x with _ | dt
          · rw [process_dispute_none a c x amt hf hc hr]; exact h
          · cases dt with
            | Deposit c2 y A =>
                rw [process_dispute_deposit a c c2 x y amt A hf hc hr]
                split_ifs with h1
                · exact h
                · intro z
                  by_cases hz : z = x
                  · subst hz; left; simp [TxMap.remove]
                  · simpa [TxMap.remove, TxMap.insert, hz] using h z
            | Withdrawal c2 y A =>
                rw [process_dispute_withdrawal a c c2 x y amt A hf hc hr]
                intro z
                by_cases hz : z = x
                · subst hz; left; simp [TxMap.remove]
                · simpa [TxMap.remove, TxMap.insert, hz] using h z
            | Dispute c2 y A =>
                rw [process_dispute_nondisputable a c x amt _ hf hc hr rfl]; exact h
            | Resolve c2 y A =>
                rw [process_dispute_nondisputable a c x amt _ hf hc hr rfl]; exact h
            | Chargeback c2 y A =>
                rw [process_dispute_nondisputable a c x amt _ hf hc hr rfl]; exact h
      | Resolve c x amt =>
          rcases hr : a.disputed x with _ | dt
          · rw [process_resolve_none a c x amt hf hc hr]; exact h
          · cases dt with
            | Deposit c2 y A =>
                rw [process_resolve_deposit a c c2 x y amt A hf hc hr]
                split_ifs with h1
                · exact h
                · intro z
                  by_cases hz : z = x
                  · subst hz; right; simp [TxMap.remove]
                  · simpa [TxMap.remove, hz] using h z
            | Withdrawal c2 y A =>
                rw [process_resolve_withdrawal a c c2 x y amt A hf hc hr]
                split_ifs with h1
                · exact h
                · intro z
                  by_cases hz : z = x
                  · subst hz; right; simp [TxMap.remove]
                  · simpa [TxMap.remove, hz] using h z
            | Dispute c2 y A =>
                rw [process_resolve_nondisputable a c x amt _ hf hc hr rfl]
                intro z
                by_cases hz : z = x
                · subst hz; right; simp [TxMap.remove]
                · simpa [TxMap.remove, hz] using h z
            | Resolve c2 y A =>
                rw [process_resolve_nondisputable a c x amt _ hf hc hr rfl]
                intro z
                by_cases hz : z = x
                · subst hz; right; simp [TxMap.remove]
                · simpa [TxMap.remove, hz] using h z
            | Chargeback c2 y A =>
                rw [process_resolve_nondisputable a c x amt _ hf hc hr rfl]
                intro z
                by_cases hz : z = x
                · subst hz; right; simp [TxMap.remove]
                · simpa [TxMap.remove, hz] using h z
      | Chargeback c x amt =>
          rcases hr : a.disputed x with _ | dt
          · rw [process_chargeback_none a c x amt hf hc hr]; exact h
          · cases dt with
            | Deposit c2 y A =>
                rw [process_chargeback_deposit a c c2 x y amt A hf hc hr]
                split_ifs with h1 h2
                · exact h
                · exact h
                · intro z
                  by_cases hz : z = x
                  · subst hz; right; simp [TxMap.remove]
                  · simpa [TxMap.remove, hz] using h z
            | Withdrawal c2 y A =>
                rw [process_chargeback_withdrawal a c c2 x y amt A hf hc hr]
                split_ifs with h1 h2
                · exact h
                · exact h
                · intro z
                  by_cases hz : z = x
                  · subst hz; right; simp [TxMap.remove]
                  · simpa [TxMap.remove, hz] using h z
            | Dispute c2 y A =>
                rw [process_chargeback_nondisputable a c x amt _ hf hc hr rfl]
                intro z
                by_cases hz : z = x
                · subst hz; right; simp [TxMap.remove]
                · simpa [TxMap.remove, hz] using h z
            | Resolve c2 y A =>
                rw [process_chargeback_nondisputable a c x amt _ hf hc hr rfl]
                intro z
                by_cases hz : z = x
                · subst hz; right; simp [TxMap.remove]
                · simpa [TxMap.remove, hz] using h z
            | Chargeback c2 y A =>
                rw [process_chargeback_nondisputable a c x amt _ hf hc hr rfl]
                intro z
                by_cases hz : z = x
                · subst hz; right; simp [TxMap.remove]
                · simpa [TxMap.remove, hz] using h z
    · rw [process_mismatch a t hf hc]; exact h

/-- Helper: whenever `process` returns an error, the account is exactly the
input account: every guard in the source precedes every mutation. -/
theorem process_error_unchanged (a : Account) (t : Transaction) (e : TransactionError)
    (h : (a.process t).1 = .error e) : (a.process t).2 = a := by
  by_cases hfz : a.frozen = true
  · rw [process_frozen a t hfz]
  · have hf : a.frozen = false := by simpa using hfz
    by_cases hc : t.clientId = a.client_id
    · cases t with
      | Deposit c x amt =>
          rw [process_deposit_eq a c x amt hf hc] at h
          exact absurd h (by simp)
      | Withdrawal c x amt =>
          rw [process_withdrawal_eq a c x amt hf hc] at h ⊢
          split_ifs at h ⊢
          all_goals simp_all
      | Dispute c x amt =>
          rcases hr : a.records x with _ | dt
          · rw [process_dispute_none a c x amt hf hc hr]
          · cases dt with
            | Deposit c2 y A =>
                rw [process_dispute_deposit a c c2 x y amt A hf hc hr] at h ⊢
                split_ifs at h ⊢
                all_goals simp_all
            | Withdrawal c2 y A =>
                rw [process_dispute_withdrawal a c c2 x y amt A hf hc hr] at h
                exact absurd h (by simp)
            | Dispute c2 y A =>
                rw [process_dispute_nondisputable a c x amt _ hf hc hr rfl]
            | Resolve c2 y A =>
                rw [process_dispute_nondisputable a c x amt _ hf hc hr rfl]
            | Chargeback c2 y A =>
                rw [process_dispute_nondisputable a c x amt _ hf hc hr rfl]
      | Resolve c x amt =>
          rcases hr : a.disputed x with _ | dt
          · rw [process_resolve_none a c x amt hf hc hr]
          · cases dt with
            | Deposit c2 y A =>
                rw [process_resolve_deposit a c c2 x y amt A hf hc hr] at h ⊢
                split_ifs at h ⊢
                all_goals simp_all
            | Withdrawal c2 y A =>
                rw [process_resolve_withdrawal a c c2 x y amt A hf hc hr] at h ⊢
                split_ifs at h ⊢
                all_goals simp_all
            | Dispute c2 y A =>
                rw [process_resolve_nondisputable a c x amt _ hf hc hr rfl] at h
                exact absurd h (by simp)
            | Resolve c2 y A =>
                rw [process_resolve_nondisputable a c x amt _ hf hc hr rfl] at h
                exact absurd h (by simp)
            | Chargeback c2 y A =>
                rw [process_resolve_nondisputable a c x amt _ hf hc hr rfl] at h
                exact absurd h (by simp)
      | Chargeback c x amt =>
          rcases hr : a.disputed x with _ | dt
          · rw [process_chargeback_none a c x amt hf hc hr]
          · cases dt with
            | Deposit c2 y A =>
                rw [process_chargeback_deposit a c c2 x y amt A hf hc hr] at h ⊢
                split_ifs at h ⊢
                all_goals simp_all
            | Withdrawal c2 y A =>
                rw [process_chargeback_withdrawal a c c2 x y amt A hf hc hr] at h ⊢
                split_ifs at h ⊢
                all_goals simp_all
            | Dispute c2 y A =>
                rw [process_chargeback_nondisputable a c x amt _ hf hc hr rfl] at h
                exact absurd h (by simp)
            | Resolve c2 y A =>
                rw [process_chargeback_nondisputable a c x amt _ hf hc hr rfl] at h
                exact absurd h (by simp)
            | Chargeback c2 y A =>
                rw [process_chargeback_nondisputable a c x amt _ hf hc hr rfl] at h
                exact absurd h (by simp)
    · rw [process_mismatch a t hf hc]

/-- Claim C1 (confirmed): for every reachable account state — any sequence of
`process` calls starting from `Account.new` — the invariant
`total = available + held` holds. -/
theorem c1_conservation (a : Account) (h : Reachable a) :
    a.total = a.available + a.held := by
  induction h with
  | new c => simp [Account.new]
  | step t h1 ih => exact balanced_step _ t ih

/-- Witness for C1 at a concrete reachable state (one successful deposit). -/
theorem c1_witness :
    Reachable (((Account.new 12).process (.Deposit 12 1 1)).2) ∧
    (((Account.new 12).process (.Deposit 12 1 1)).2).total =
      (((Account.new 12).process (.Deposit 12 1 1)).2).available +
      (((Account.new 12).process (.Deposit 12 1 1)).2).held :=
  ⟨Reachable.step _ (Reachable.new 12),
   c1_conservation _ (Reachable.step _ (Reachable.new 12))⟩

/-- Claim C2, counterexample: (1) after Deposit, Dispute, Resolve of id 1, a
successful Resolve leaves the settled id in neither map — the source removes
it from `disputed` without re-inserting it into `records`; (2) re-depositing
a currently disputed id puts it in both maps simultaneously. Both refute the
claim as stated. -/
theorem c2_counterexample :
    ((((Account.new 12).processAll
        [.Deposit 12 1 1, .Dispute 12 1 0]).process (.Resolve 12 1 0)).1 = .ok () ∧
     ((Account.new 12).processAll
        [.Deposit 12 1 1, .Dispute 12 1 0, .Resolve 12 1 0]).records 1 = none ∧
     ((Account.new 12).processAll
        [.Deposit 12 1 1, .Dispute 12 1 0, .Resolve 12 1 0]).disputed 1 = none) ∧
    (((Account.new 12).processAll
        [.Deposit 12 1 1, .Dispute 12 1 0, .Deposit 12 1 1]).records 1 =
          some (.Deposit 12 1 1) ∧
     ((Account.new 12).processAll
        [.Deposit 12 1 1, .Dispute 12 1 0, .Deposit 12 1 1]).disputed 1 =
          some (.Deposit 12 1 1)) := by
  refine ⟨⟨?_, ?_, ?_⟩, ?_, ?_⟩ <;> with_unfolding_all rfl

/-- Claim C2 (amended): along traces in which every Deposit/Withdrawal id is
fresh, a transaction id is never simultaneously present in `records` and
`disputed`; a resolve or chargeback removes the id from `disputed` without
returning it to `records`. -/
theorem c2_amended_disjoint (a : Account) (h : ReachableFresh a) : MapsDisjoint a := by
  induction h with
  | new c => intro x; left; rfl
  | step t h1 h2 ih => exact disjoint_step _ t ih h2

/-- Witness for C2 at a concrete fresh-id reachable state. -/
theorem c2_witness :
    ReachableFresh (((Account.new 12).process (.Deposit 12 1 1)).2) ∧
    MapsDisjoint (((Account.new 12).process (.Deposit 12 1 1)).2) :=
  ⟨ReachableFresh.step _ (ReachableFresh.new 12) ⟨rfl, rfl⟩,
   c2_amended_disjoint _ (ReachableFresh.step _ (ReachableFresh.new 12) ⟨rfl, rfl⟩)⟩

/-- Claim C3 (confirmed): on a frozen account every transaction, of any
variant and any client id, fails with `AccountFrozen` and leaves the entire
state unchanged; in particular `frozen` remains true forever. -/
theorem c3_frozen_latch (a : Account) (t : Transaction) (h : a.frozen = true) :
    a.process t = (.error .AccountFrozen, a) ∧ ((a.process t).2).frozen = true := by
  refine ⟨process_frozen a t h, ?_⟩
  rw [process_frozen a t h]
  exact h

/-- Witness for C3 on a concrete frozen account, exercised with a transaction
whose client id does not even match. -/
theorem c3_witness :
    ({ Account.new 1 with frozen := true } : Account).process (.Deposit 2 7 5) =
      (.error .AccountFrozen, { Account.new 1 with frozen := true }) ∧
    ((({ Account.new 1 with frozen := true } : Account).process
        (.Deposit 2 7 5)).2).frozen = true :=
  c3_frozen_latch _ _ rfl

/-- Claim C5 (confirmed): on a non-frozen account with matching client id,
every `process` call that returns an error leaves the entire account state
exactly as it was — no operation partially applies. (The hypotheses on
`frozen` and the client id are not even needed: see
`process_error_unchanged`.) -/
theorem c5_atomic_errors (a : Account) (t : Transaction) (e : TransactionError)
    (_hf : a.frozen = false) (_hc : t.clientId = a.client_id)
    (h : (a.process t).1 = .error e) : (a.process t).2 = a :=
  process_error_unchanged a t e h

/-- Witness for C5: a failing withdrawal on a fresh account. -/
theorem c5_witness :
    ((Account.new 1).process (.Withdrawal 1 9 5)).1 = .error .InsufficientFunds ∧
    ((Account.new 1).process (.Withdrawal 1 9 5)).2 = Account.new 1 := by
  have h : ((Account.new 1).process (.Withdrawal 1 9 5)).1 = .error .InsufficientFunds := by
    with_unfolding_all rfl
  exact ⟨h, c5_atomic_errors _ _ _ rfl rfl h⟩

/-- Claim C6 (confirmed): Chargeback fails with `UnknownTransaction` when the
id is not in `disputed`; for a disputed Deposit or Withdrawal of amount `A`
it fails with `InsufficientHeldFunds` when `held < A`, then with
`InsufficientTotalFunds` when `total < A`; on success `held` and `total` are
debited by `A`, `frozen` is set unconditionally, and the id is removed from
`disputed` with `records` untouched. -/
theorem c6_chargeback (a : Account) (c : ClientId) (x : Tx) (amt : Amount)
    (hf : a.frozen = false) (hc : c = a.client_id) :
    (a.disputed x = none →
       a.process (.Chargeback c x amt) = (.error .UnknownTransaction, a)) ∧
    (∀ (dt : Transaction) (c2 : ClientId) (y : Tx) (A : Amount),
       a.disputed x = some dt →
       (dt = .Deposit c2 y A ∨ dt = .Withdrawal c2 y A) →
       (a.held < A →
          a.process (.Chargeback c x amt) = (.error .InsufficientHeldFunds, a)) ∧
       (¬ a.held < A → a.total < A →
          a.process (.Chargeback c x amt) = (.error .InsufficientTotalFunds, a)) ∧
       (¬ a.held < A → ¬ a.total < A →
          a.process (.Chargeback c x amt) =
            (.ok (), { a with held := a.held - A
                              total := a.total - A
                              frozen := true
                              disputed := a.disputed.remove x }))) := by
  constructor
  · intro h
    exact process_chargeback_none a c x amt hf hc h
  · rintro dt c2 y A hx (rfl | rfl)
    · rw [process_chargeback_deposit a c c2 x y amt A hf hc hx]
      refine ⟨fun h1 => ?_, fun h1 h2 => ?_, fun h1 h2 => ?_⟩
      · rw [if_pos h1]
      · rw [if_neg h1, if_pos h2]
      · rw [if_neg h1, if_neg h2]
    · rw [process_chargeback_withdrawal a c c2 x y amt A hf hc hx]
      refine ⟨fun h1 => ?_, fun h1 h2 => ?_, fun h1 h2 => ?_⟩
      · rw [if_pos h1]
      · rw [if_neg h1, if_pos h2]
      · rw [if_neg h1, if_neg h2]

/-- Witness for C6: successful chargeback of the disputed deposit of
`sampleHeld`, mirroring the Rust test `test_chargeback_deposit`. -/
theorem c6_witness :
    sampleHeld.process (.Chargeback 12 1 0) =
      (.ok (), { sampleHeld with held := sampleHeld.held - 1
                                 total := sampleHeld.total - 1
                                 frozen := true
                                 disputed := sampleHeld.disputed.remove 1 }) := by
  have h := (c6_chargeback sampleHeld 12 1 0 rfl rfl).2 (.Deposit 12 1 1) 12 1 1 rfl
    (Or.inl rfl)
  exact h.2.2 (by norm_num [sampleHeld, Account.new]) (by norm_num [sampleHeld, Account.new])

/-- Claim C7 (confirmed): disputing a stored Deposit of amount `A` fails with
`InsufficientFunds` when `available < A` and otherwise moves `A` from
`available` to `held` with `total` unchanged; disputing a stored Withdrawal
always succeeds and credits both `held` and `total`; in both success cases
the record moves from `records` to `disputed`. -/
theorem c7_dispute (a : Account) (c c2 : ClientId) (x y : Tx) (amt A : Amount)
    (hf : a.frozen = false) (hc : c = a.client_id) :
    (a.records x = some (.Deposit c2 y A) →
       (a.available < A →
          a.process (.Dispute c x amt) = (.error .InsufficientFunds, a)) ∧
       (¬ a.available < A →
          a.process (.Dispute c x amt) =
            (.ok (), { a with available := a.available - A
                              held := a.held + A
                              records := a.records.remove x
                              disputed := a.disputed.insert x (.Deposit c2 y A) }))) ∧
    (a.records x = some (.Withdrawal c2 y A) →
       a.process (.Dispute c x amt) =
         (.ok (), { a with held := a.held + A
                           total := a.total + A
                           records := a.records.remove x
                           disputed := a.disputed.insert x (.Withdrawal c2 y A) })) := by
  constructor
  · intro hx
    rw [process_dispute_deposit a c c2 x y amt A hf hc hx]
    exact ⟨fun h1 => by rw [if_pos h1], fun h1 => by rw [if_neg h1]⟩
  · intro hx
    exact process_dispute_withdrawal a c c2 x y amt A hf hc hx

/-- Witness for C7: disputing the stored withdrawal of `sampleRecords`,
mirroring Scenario C of the spec. -/
theorem c7_witness :
    sampleRecords.process (.Dispute 12 2 1) =
      (.ok (), { sampleRecords with
                   held := sampleRecords.held + 1
                   total := sampleRecords.total + 1
                   records := sampleRecords.records.remove 2
                   disputed := sampleRecords.disputed.insert 2 (.Withdrawal 12 2 1) }) :=
  (c7_dispute sampleRecords 12 12 2 2 1 1 rfl rfl).2 rfl

/-- Claim C8 (confirmed): Withdrawal fails with `InsufficientFunds` when
`available < amount` (checked first) and, independently, when
`total < amount`; on success it debits `available` and `total` and records
the transaction under its id. -/
theorem c8_withdrawal (a : Account) (c : ClientId) (x : Tx) (amt : Amount)
    (hf : a.frozen = false) (hc : c = a.client_id) :
    (a.available < amt →
       a.process (.Withdrawal c x amt) = (.error .InsufficientFunds, a)) ∧
    (¬ a.available < amt → a.total < amt →
       a.process (.Withdrawal c x amt) = (.error .InsufficientFunds, a)) ∧
    (¬ a.available < amt → ¬ a.total < amt →
       a.process (.Withdrawal c x amt) =
         (.ok (), { a with available := a.available - amt
                           total := a.total - amt
                           records := a.records.insert x (.Withdrawal c x amt) })) := by
  rw [process_withdrawal_eq a c x amt hf hc]
  refine ⟨fun h1 => ?_, fun h1 h2 => ?_, fun h1 h2 => ?_⟩
  · rw [if_pos h1]
  · rw [if_neg h1, if_pos h2]
  · rw [if_neg h1, if_neg h2]

/-- Witness for C8: Scenario B of the spec — withdrawing 3 from an account
holding 1 fails with `InsufficientFunds` and changes nothing. -/
theorem c8_witness :
    (((Account.new 12).process (.Deposit 12 1 1)).2).available < 3 ∧
    (((Account.new 12).process (.Deposit 12 1 1)).2).process (.Withdrawal 12 2 3) =
      (.error .InsufficientFunds, ((Account.new 12).process (.Deposit 12 1 1)).2) := by
  have hav : (((Account.new 12).process (.Deposit 12 1 1)).2).available = 1 := by
    with_unfolding_all rfl
  have hlt : (((Account.new 12).process (.Deposit 12 1 1)).2).available < 3 := by
    rw [hav]; norm_num
  have hfz : (((Account.new 12).process (.Deposit 12 1 1)).2).frozen = false := by
    with_unfolding_all rfl
  have hcl : (12 : ClientId) = (((Account.new 12).process (.Deposit 12 1 1)).2).client_id := by
    with_unfolding_all rfl
  exact ⟨hlt, (c8_withdrawal _ 12 2 3 hfz hcl).1 hlt⟩

/-- Claim C9, counterexample: on a frozen account, a transaction whose client
id differs from the account id is rejected with `AccountFrozen`, not
`ClientMismatch` — the frozen check runs first, refuting the claim for
"every account". -/
theorem c9_counterexample :
    Transaction.clientId (.Deposit 2 7 5) ≠
      ({ Account.new 1 with frozen := true } : Account).client_id ∧
    (({ Account.new 1 with frozen := true } : Account).process (.Deposit 2 7 5)).1 ≠
      .error .ClientMismatch := by
  constructor
  · decide
  · intro hEq
    have h : (({ Account.new 1 with frozen := true } : Account).process
        (.Deposit 2 7 5)).1 = .error .AccountFrozen := by
      with_unfolding_all rfl
    rw [h] at hEq
    simp at hEq

/-- Claim C9 (amended): on every NON-frozen account, a transaction whose
embedded client id differs from the account id fails with `ClientMismatch`
and leaves the state unchanged. -/
theorem c9_amended_mismatch (a : Account) (t : Transaction) (hf : a.frozen = false)
    (hc : t.clientId ≠ a.client_id) :
    a.process t = (.error .ClientMismatch, a) :=
  process_mismatch a t hf hc

/-- Witness for C9: a misrouted deposit on a fresh (non-frozen) account. -/
theorem c9_witness :
    (Account.new 1).process (.Deposit 2 7 5) = (.error .ClientMismatch, Account.new 1) :=
  c9_amended_mismatch _ _ rfl (by decide)

/-- Claim C10 (confirmed): amounts are never validated as non-negative — a
Deposit of −5 on a fresh account succeeds and drives `available` and `total`
below zero, and a Withdrawal of −3 succeeds and increases both. -/
theorem c10_no_amount_validation :
    ((Account.new 1).process (.Deposit 1 1 (-5))).1 = .ok () ∧
    (((Account.new 1).process (.Deposit 1 1 (-5))).2).available < 0 ∧
    (((Account.new 1).process (.Deposit 1 1 (-5))).2).total < 0 ∧
    ((Account.new 1).process (.Withdrawal 1 2 (-3))).1 = .ok () ∧
    (Account.new 1).available < (((Account.new 1).process (.Withdrawal 1 2 (-3))).2).available ∧
    (Account.new 1).total < (((Account.new 1).process (.Withdrawal 1 2 (-3))).2).total := by
  refine ⟨by with_unfolding_all rfl, ?_, ?_, by with_unfolding_all rfl, ?_, ?_⟩
  · rw [show (((Account.new 1).process (.Deposit 1 1 (-5))).2).available = -5 from by
      with_unfolding_all rfl]
    norm_num
  · rw [show (((Account.new 1).process (.Deposit 1 1 (-5))).2).total = -5 from by
      with_unfolding_all rfl]
    norm_num
  · rw [show (((Account.new 1).process (.Withdrawal 1 2 (-3))).2).available = 3 from by
      with_unfolding_all rfl]
    rw [show (Account.new 1).available = 0 from rfl]
    norm_num
  · rw [show (((Account.new 1).process (.Withdrawal 1 2 (-3))).2).total = 3 from by
      with_unfolding_all rfl]
    rw [show (Account.new 1).total = 0 from rfl]
    norm_num

/-- Claim C4, counterexample: Deposit of amount 2 (id 1), then Dispute, then
Resolve: both dispute and resolve succeed and the balances are restored, yet
the transaction is NOT returned to `records` — `records 1` is `none`
afterwards, refuting the claim as stated. -/
theorem c4_counterexample :
    ((((Account.new 7).processAll [.Deposit 7 1 2]).process (.Dispute 7 1 0)).1 = .ok ()) ∧
    ((((Account.new 7).processAll [.Deposit 7 1 2, .Dispute 7 1 0]).process
        (.Resolve 7 1 0)).1 = .ok ()) ∧
    ((Account.new 7).processAll
        [.Deposit 7 1 2, .Dispute 7 1 0, .Resolve 7 1 0]).available =
      ((Account.new 7).processAll [.Deposit 7 1 2]).available ∧
    ((Account.new 7).processAll
        [.Deposit 7 1 2, .Dispute 7 1 0, .Resolve 7 1 0]).records 1 = none := by
  refine ⟨?_, ?_, ?_, ?_⟩ <;> with_unfolding_all rfl

/-- Claim C4 (amended): for a stored Deposit or Withdrawal, Dispute followed
immediately by Resolve succeeds (given `held ≥ 0`, and `available ≥ A` for a
stored Deposit of amount `A`) and restores the exact pre-dispute balances and
frozen flag; but the transaction is removed from both maps rather than
returned to `records`; all other map entries are unchanged. -/
theorem c4_amended_roundtrip (a : Account) (c c2 : ClientId) (x y : Tx)
    (amt1 amt2 A : Amount) (dt : Transaction)
    (hf : a.frozen = false) (hc : c = a.client_id)
    (hx : a.records x = some dt)
    (hvar : dt = .Deposit c2 y A ∨ dt = .Withdrawal c2 y A)
    (hheld : 0 ≤ a.held)
    (hava : dt = .Deposit c2 y A → A ≤ a.available) :
    ((a.process (.Dispute c x amt1)).1 = .ok ()) ∧
    ((((a.process (.Dispute c x amt1)).2).process (.Resolve c x amt2)).1 = .ok ()) ∧
    (((((a.process (.Dispute c x amt1)).2).process (.Resolve c x amt2)).2).available
        = a.available) ∧
    (((((a.process (.Dispute c x amt1)).2).process (.Resolve c x amt2)).2).held
        = a.held) ∧
    (((((a.process (.Dispute c x amt1)).2).process (.Resolve c x amt2)).2).total
        = a.total) ∧
    (((((a.process (.Dispute c x amt1)).2).process (.Resolve c x amt2)).2).frozen
        = a.frozen) ∧
    (((((a.process (.Dispute c x amt1)).2).process (.Resolve c x amt2)).2).records x
        = none) ∧
    (((((a.process (.Dispute c x amt1)).2).process (.Resolve c x amt2)).2).disputed x
        = none) ∧
    (∀ z, z ≠ x →
      (((((a.process (.Dispute c x amt1)).2).process (.Resolve c x amt2)).2).records z
          = a.records z) ∧
      (((((a.process (.Dispute c x amt1)).2).process (.Resolve c x amt2)).2).disputed z
          = a.disputed z)) := by
  rcases hvar with rfl | rfl
  · have hA : ¬ a.available < A := not_lt.mpr (hava rfl)
    have e1 : a.process (.Dispute c x amt1) =
        (.ok (), { a with available := a.available - A, held := a.held + A, records := a.records.remove x, disputed := a.disputed.insert x (.Deposit c2 y A) }) := by
      rw [process_dispute_deposit a c c2 x y amt1 A hf hc hx, if_neg hA]
    have hx2 : ({ a with available := a.available - A, held := a.held + A, records := a.records.remove x, disputed := a.disputed.insert x (.Deposit c2 y A) } : Account).disputed x = some (.Deposit c2 y A) := by
      simp [TxMap.insert]
    have hh2 : ¬ ({ a with available := a.available - A, held := a.held + A, records := a.records.remove x, disputed := a.disputed.insert x (.Deposit c2 y A) } : Account).held < A := by
      show ¬ a.held + A < A
      linarith
    have hf2 : ({ a with available := a.available - A, held := a.held + A, records := a.records.remove x, disputed := a.disputed.insert x (.Deposit c2 y A) } : Account).frozen = false := hf
    have hc2 : c = ({ a with available := a.available - A, held := a.held + A, records := a.records.remove x, disputed := a.disputed.insert x (.Deposit c2 y A) } : Account).client_id := hc
    have e2 : ({ a with available := a.available - A, held := a.held + A, records := a.records.remove x, disputed := a.disputed.insert x (.Deposit c2 y A) } : Account).process (.Resolve c x amt2) =
        (.ok (), { a with available := (a.available - A) + A, held := (a.held + A) - A, records := a.records.remove x, disputed := (a.disputed.insert x (.Deposit c2 y A)).remove x }) := by
      rw [process_resolve_deposit _ c c2 x y amt2 A hf2 hc2 hx2, if_neg hh2]
    simp only [e1, e2]
    refine ⟨by trivial, by trivial, by ring, by ring, by trivial, by trivial,
      by simp [TxMap.remove], by simp [TxMap.remove],
      fun z hz => ⟨by simp [TxMap.remove, hz],
      by simp [TxMap.remove, TxMap.insert, hz]⟩⟩
  · have e1 : a.process (.Dispute c x amt1) =
        (.ok (), { a with held := a.held + A, total := a.total + A, records := a.records.remove x, disputed := a.disputed.insert x (.Withdrawal c2 y A) }) :=
      process_dispute_withdrawal a c c2 x y amt1 A hf hc hx
    have hx2 : ({ a with held := a.held + A, total := a.total + A, records := a.records.remove x, disputed := a.disputed.insert x (.Withdrawal c2 y A) } : Account).disputed x = some (.Withdrawal c2 y A) := by
      simp [TxMap.insert]
    have hh2 : ¬ ({ a with held := a.held + A, total := a.total + A, records := a.records.remove x, disputed := a.disputed.insert x (.Withdrawal c2 y A) } : Account).held < A := by
      show ¬ a.held + A < A
      linarith
    have hf2 : ({ a with held := a.held + A, total := a.total + A, records := a.records.remove x, disputed := a.disputed.insert x (.Withdrawal c2 y A) } : Account).frozen = false := hf
    have hc2 : c = ({ a with held := a.held + A, total := a.total + A, records := a.records.remove x, disputed := a.disputed.insert x (.Withdrawal c2 y A) } : Account).client_id := hc
    have e2 : ({ a with held := a.held + A, total := a.total + A, records := a.records.remove x, disputed := a.disputed.insert x (.Withdrawal c2 y A) } : Account).process (.Resolve c x amt2) =
        (.ok (), { a with held := (a.held + A) - A, total := (a.total + A) - A, records := a.records.remove x, disputed := (a.disputed.insert x (.Withdrawal c2 y A)).remove x }) := by
      rw [process_resolve_withdrawal _ c c2 x y amt2 A hf2 hc2 hx2, if_neg hh2]
    simp only [e1, e2]
    refine ⟨by trivial, by trivial, by trivial, by ring, by ring, by trivial,
      by simp [TxMap.remove], by simp [TxMap.remove],
      fun z hz => ⟨by simp [TxMap.remove, hz],
      by simp [TxMap.remove, TxMap.insert, hz]⟩⟩

/-- Witness for C4 on the concrete Scenario C account, disputing and then
resolving the stored withdrawal (id 2). -/
theorem c4_witness :
    (sampleRecords.process (.Dispute 12 2 0)).1 = .ok () ∧
    (((sampleRecords.process (.Dispute 12 2 0)).2).process (.Resolve 12 2 0)).1 = .ok () ∧
    ((((sampleRecords.process (.Dispute 12 2 0)).2).process (.Resolve 12 2 0)).2).total
      = sampleRecords.total ∧
    ((((sampleRecords.process (.Dispute 12 2 0)).2).process (.Resolve 12 2 0)).2).records 2
      = none := by
  have h := c4_amended_roundtrip sampleRecords 12 12 2 2 0 0 1 (.Withdrawal 12 2 1)
    rfl rfl rfl (Or.inr rfl) (le_refl 0) (fun hcontra => nomatch hcontra)
  exact ⟨h.1, h.2.1, h.2.2.2.2.1, h.2.2.2.2.2.2.1⟩

end Payments
